import Mathlib

/-!
Shallow embedding of the token-lifecycle core of `oauth2_proxy`
(files `providers/okta.go` and `logging_handler.go`), together with
theorems checking the natural-language specification against it.

Modelling conventions:
* Go `time.Time` values are nanoseconds since the epoch, as `Int`;
  `time.Duration` is likewise an `Int` of nanoseconds.
* Each network round trip is represented by an `HttpResult` argument:
  the outcome the HTTP client would deliver (transport failure, body
  read failure, or a status/body pair along with the JSON parse of the
  body).  A function that never inspects this argument provably makes
  no network call.
* Mutation of `*SessionState` becomes explicit state passing: the Go
  method `(bool, error)` plus its receiver mutation is a Lean function
  returning the new session, the `refreshed` flag and an optional error.
-/

namespace OAuth2Proxy

/-- JSON documents as decoded by Go `encoding/json`. -/
inductive Json where
  | null
  | bool (b : Bool)
  | num (n : Int)
  | str (s : String)
  | arr (elems : List Json)
  | obj (fields : List (String × Json))
deriving Repr

/-- First binding of a key in a decoded JSON object. -/
def lookupField : List (String × Json) → String → Option Json
  | [], _ => none
  | (k, v) :: rest, key => if k = key then some v else lookupField rest key

/-- Go `time.Second` in nanoseconds. -/
def nsPerSecond : Int := 1000000000

/-- Go `t.After(u)` on `time.Time`: strictly later. -/
def timeAfter (t u : Int) : Bool := decide (u < t)

/-- Go `t.Truncate(time.Second)`: round down to a whole second. -/
def truncateSecond (t : Int) : Int := t.ediv nsPerSecond * nsPerSecond

/-- The fields of `SessionState` that `providers/okta.go` touches. -/
structure SessionState where
  AccessToken : String
  RefreshToken : String
  ExpiresOn : Int
deriving Repr, DecidableEq

/-- The `url.URL` fields populated by `SetOktaDomain`. -/
structure URL where
  scheme : String
  host : String
  path : String
deriving Repr, DecidableEq

/-- Go `(*url.URL).String()` restricted to scheme/host/path (no user,
    opaque, query or fragment appear in this code). -/
def URL.render (u : URL) : String :=
  (if u.scheme = "" then "" else u.scheme ++ ":")
    ++ (if (u.scheme ≠ "" ∨ u.host ≠ "") ∧ (u.host ≠ "" ∨ u.path ≠ "") then "//" else "")
    ++ u.host
    ++ (if u.path ≠ "" ∧ ¬ u.path.startsWith "/" ∧ u.host ≠ "" then "/" else "")
    ++ u.path

/-- Provider configuration (`ProviderData`), with the endpoint pointers
    as `Option URL` (`none` models a nil pointer). -/
structure ProviderData where
  ProviderName : String
  ClientID : String
  ClientSecret : String
  Scope : String
  LoginURL : Option URL
  RedeemURL : Option URL
  ValidateURL : Option URL
deriving Repr, DecidableEq

/-- The guard `p.X == nil || p.X.String() == ""` of `SetOktaDomain`. -/
def urlUnsetOrEmpty : Option URL → Bool
  | none => true
  | some u => decide (u.render = "")

/-- Function `SetOktaDomain`: default each endpoint only where currently unset
    or rendering to the empty string. -/
def SetOktaDomain (p : ProviderData) (domain : String) : ProviderData :=
  let p1 :=
    if urlUnsetOrEmpty p.LoginURL then
      { p with LoginURL := some ⟨"https", domain, "/oauth2/v1/authorize"⟩ }
    else p
  let p2 :=
    if urlUnsetOrEmpty p1.RedeemURL then
      { p1 with RedeemURL := some ⟨"https", domain, "/oauth2/v1/token"⟩ }
    else p1
  if urlUnsetOrEmpty p2.ValidateURL then
    { p2 with ValidateURL := some ⟨"https", domain, "/oauth2/v1/userinfo"⟩ }
  else p2

/-- Function `NewOktaProvider`: stamp the provider name and default the scope. -/
def NewOktaProvider (p : ProviderData) : ProviderData :=
  let p1 := { p with ProviderName := "Okta" }
  if p1.Scope = "" then
    { p1 with Scope := "openid profile email offline_access" }
  else p1

/-- Function `getOktaHeader`: the bearer header, and nothing else. -/
def getOktaHeader (access_token : String) : List (String × String) :=
  [("Authorization", "Bearer " ++ access_token)]

/-- Outcome of one HTTP round trip, as seen by the caller: transport
    failure, failure reading the body, or a status code with the raw
    body and the result of parsing that body as JSON. -/
inductive HttpResult where
  | transportError (e : String)
  | readError (e : String)
  | response (status : Nat) (body : String) (parsed : Except String Json)
deriving Repr

/-- Target of `json.Unmarshal` in `redeemRefreshToken`:
    `struct { AccessToken string; ExpiresIn int64 }`. -/
structure RefreshData where
  AccessToken : String
  ExpiresIn : Int
deriving Repr, DecidableEq

/-- Go `encoding/json` unmarshalling of a parsed document into
    `RefreshData`: a missing field keeps its zero value (`""` / `0`),
    a present field of the wrong type is an error, and a non-object
    document is an error. -/
def unmarshalRefreshData : Json → Except String RefreshData
  | .obj fields =>
    match lookupField fields "access_token", lookupField fields "expires_in" with
    | some (.str a), some (.num n) => .ok ⟨a, n⟩
    | some (.str a), none => .ok ⟨a, 0⟩
    | none, some (.num n) => .ok ⟨"", n⟩
    | none, none => .ok ⟨"", 0⟩
    | _, _ => .error "json: cannot unmarshal value into struct"
  | _ => .error "json: cannot unmarshal non-object value into struct"

/-- Go `%q` applied to a URL string (none of the URLs in play need
    escape sequences). -/
def goQuote (s : String) : String := "\"" ++ s ++ "\""

/-- Function `redeemRefreshToken`: POST to the token endpoint, then
    * transport or body-read failure: that error;
    * non-200 status: error text carrying status, URL and raw body;
    * otherwise unmarshal `{access_token, expires_in}`, returning the
      token and `ExpiresIn * time.Second` as the duration. -/
def redeemRefreshToken (redeemURL : String) (r : HttpResult) :
    Except String (String × Int) :=
  match r with
  | .transportError e => .error e
  | .readError e => .error e
  | .response status body parsed =>
    if status ≠ 200 then
      .error ("got " ++ toString status ++ " from " ++ goQuote redeemURL ++ " " ++ body)
    else
      match parsed with
      | .error e => .error e
      | .ok j =>
        match unmarshalRefreshData j with
        | .error e => .error e
        | .ok d => .ok (d.AccessToken, d.ExpiresIn * nsPerSecond)

/-- Function `RefreshSessionIfNeeded`.  `nowCheck` is the `time.Now()` of the
    expiry guard, `nowCommit` the `time.Now()` of the commit line;
    `wire` is the outcome the token endpoint would deliver if called.
    Result: the session after the call, the `refreshed` flag, and the
    error. -/
def RefreshSessionIfNeeded (redeemURL : String) (s : Option SessionState)
    (nowCheck nowCommit : Int) (wire : HttpResult) :
    Option SessionState × Bool × Option String :=
  match s with
  | none => (none, false, none)
  | some st =>
    if timeAfter st.ExpiresOn nowCheck || st.RefreshToken == "" then
      (some st, false, none)
    else
      match redeemRefreshToken redeemURL wire with
      | .error e => (some st, false, some e)
      | .ok (newToken, duration) =>
        (some { st with
                  AccessToken := newToken,
                  ExpiresOn := truncateSecond (nowCommit + duration) },
         true, none)

/-- Modelled from the spec: `validateToken` (the shared validation
    helper of the providers package, not under `src/`).  Per §4.1, §4.4
    and §8 of the spec it never returns an error: transport failure, an
    unreadable body, a non-success status and a malformed body all
    collapse to `false`, and status 200 with a parseable body is
    `true`. -/
def validateToken (access_token : String) (header : List (String × String))
    (r : HttpResult) : Bool :=
  match r with
  | .transportError _ => false
  | .readError _ => false
  | .response status _ parsed => status == 200 && parsed.isOk

/-- Function `ValidateSessionState`: delegate to `validateToken` with the
    session's bearer header. -/
def ValidateSessionState (s : SessionState) (r : HttpResult) : Bool :=
  validateToken s.AccessToken (getOktaHeader s.AccessToken) r

/-- An outgoing HTTP request as built by `GetEmailAddress` /
    `GetUserName`. -/
structure HttpRequest where
  method : String
  url : String
  headers : List (String × String)
deriving Repr, DecidableEq

/-- The GET request `GetEmailAddress` issues: the validate (userinfo)
    endpoint with the session's bearer header. -/
def oktaUserinfoRequest (p : ProviderData) (s : SessionState) : HttpRequest :=
  { method := "GET"
    url := match p.ValidateURL with | none => "" | some u => u.render
    headers := getOktaHeader s.AccessToken }

/-- Modelled from the spec: the simplejson accessor chain
    `json.Get(key).String()` used on the decoded userinfo document
    (the `api` package is not under `src/`).  Per §4.2 it reads a named
    top-level key of the object as a string; absence of the key, a
    non-string value or a non-object document is an extraction failure
    `("", error)`, not a crash. -/
def simpleJsonGetString (j : Json) (key : String) : String × Option String :=
  match j with
  | .obj fields =>
    match lookupField fields key with
    | some (.str s) => (s, none)
    | _ => ("", some "type assertion to string failed")
  | _ => ("", some "type assertion to string failed")

/-- Function `GetEmailAddress`: forward an `api.Request` failure as `("", err)`,
    otherwise extract the top-level `email` key as a string. -/
def GetEmailAddress (apiResult : Except String Json) : String × Option String :=
  match apiResult with
  | .error e => ("", some e)
  | .ok j => simpleJsonGetString j "email"

/-- Function `GetUserName`: same call pattern, extracting `preferred_username`. -/
def GetUserName (apiResult : Except String Json) : String × Option String :=
  match apiResult with
  | .error e => ("", some e)
  | .ok j => simpleJsonGetString j "preferred_username"

/-! ### `logging_handler.go` -/

/-- Go `http.Header.Get`: the first value bound to the key, `""` when the
    key is absent. -/
def headerGet : List (String × String) → String → String
  | [], _ => ""
  | (k, v) :: rest, key => if k = key then v else headerGet rest key

/-- Go `http.Header.Del`: remove every binding of the key. -/
def headerDel (h : List (String × String)) (key : String) :
    List (String × String) :=
  h.filter (fun kv => kv.1 ≠ key)

/-- Struct `responseLogger`: the wrapper around the underlying
    `http.ResponseWriter`, whose header map is `headers`. -/
structure responseLogger where
  headers : List (String × String)
  status : Nat
  size : Nat
  upstream : String
  authInfo : String
deriving Repr, DecidableEq

/-- Method `ExtractGAPMetadata`: capture a non-empty `GAP-Upstream-Address`
    and then a non-empty `GAP-Auth` into the logger, deleting each from
    the response header map. -/
def ExtractGAPMetadata (l : responseLogger) : responseLogger :=
  let l1 :=
    if headerGet l.headers "GAP-Upstream-Address" ≠ "" then
      { l with upstream := headerGet l.headers "GAP-Upstream-Address",
               headers := headerDel l.headers "GAP-Upstream-Address" }
    else l
  if headerGet l1.headers "GAP-Auth" ≠ "" then
    { l1 with authInfo := headerGet l1.headers "GAP-Auth",
              headers := headerDel l1.headers "GAP-Auth" }
  else l1

/-- Method `responseLogger.WriteHeader`: extract the GAP metadata, then write
    the status line.  The second component is the header map the
    underlying writer sends to the client at that moment. -/
def loggerWriteHeader (l : responseLogger) (s : Nat) :
    responseLogger × List (String × String) :=
  let l1 := ExtractGAPMetadata l
  ({ l1 with status := s }, l1.headers)

/-- Method `responseLogger.Write`: default the status to 200, extract the GAP
    metadata, then write the chunk.  The second component is the header
    map visible to the client at the moment of the write. -/
def loggerWrite (l : responseLogger) (b : String) :
    responseLogger × List (String × String) :=
  let l1 := if l.status = 0 then { l with status := 200 } else l
  let l2 := ExtractGAPMetadata l1
  ({ l2 with size := l2.size + b.length }, l2.headers)

/-- The username rendered by `writeLogLine`: `"-"` substituted for an
    empty value, then possibly replaced by the URL's userinfo name. -/
def logLineUsername (username : String) (urlUser : Option String) : String :=
  let u := if username = "" then "-" else username
  match urlUser with
  | none => u
  | some name => if u = "-" ∧ name ≠ "" then name else u

/-- The upstream rendered by `writeLogLine`: `"-"` substituted for an
    empty value. -/
def logLineUpstream (upstream : String) : String :=
  if upstream = "" then "-" else upstream

/-- The fields of the audit line that depend on the logger state (the
    remaining fields of `logMessageData` are formatting of the request
    and clock). -/
structure LogLineData where
  Username : String
  Upstream : String
  RequestBody : String
  StatusCode : String
  ResponseSize : String
deriving Repr, DecidableEq

/-- Method `writeLogLine`, restricted to the data fields modelled here. -/
def writeLogLine (username upstream : String) (urlUser : Option String)
    (body : String) (status size : Nat) : LogLineData :=
  { Username := logLineUsername username urlUser
    Upstream := logLineUpstream upstream
    RequestBody := if body.length > 500 then body.take 500 else body
    StatusCode := toString status
    ResponseSize := toString size }

/-! ### Helper lemmas -/

theorem append_left_ne_empty (s t : String) (h : s ≠ "") : s ++ t ≠ "" := by
  intro hc
  apply h
  have hlen := congrArg String.length hc
  rw [String.length_append] at hlen
  have hs : s.length = 0 := by
    have h0 : ("" : String).length = 0 := rfl
    omega
  cases s with
  | mk data =>
    cases data with
    | nil => rfl
    | cons c cs => simp [String.length] at hs

theorem render_okta_ne_empty (d path : String) :
    URL.render ⟨"https", d, path⟩ ≠ "" := by
  unfold URL.render
  apply append_left_ne_empty
  apply append_left_ne_empty
  apply append_left_ne_empty
  apply append_left_ne_empty
  show (if ("https" : String) = "" then "" else "https" ++ ":") ≠ ""
  decide

/-! ### Theorems for the claims -/

/-- C1, counterexample: at `now = ExpiresOn` (token expiring at exactly
    now) with a refresh token present, `RefreshSessionIfNeeded` does
    call the token endpoint, commits the new token and returns
    `(true, nil)` — not `(false, nil)` with the session untouched, as
    the claim requires for `now ≤ ExpiresOn`. -/
theorem refreshAtExactExpiry_refreshes :
    (1000000000 : Int) ≤ (SessionState.mk "old" "refresh-tok" 1000000000).ExpiresOn
    ∧ RefreshSessionIfNeeded "https://example.okta.com/oauth2/v1/token"
        (some (SessionState.mk "old" "refresh-tok" 1000000000)) 1000000000 1000000000
        (.response 200 "token-response-body"
          (.ok (.obj [("access_token", Json.str "new123"), ("expires_in", Json.num 3600)])))
        = (some (SessionState.mk "new123" "refresh-tok" 3601000000000), true, none) := by
  exact ⟨le_refl _, rfl⟩

/-- C1 (amended): for every non-nil session with `now < ExpiresOn`
    (strictly in the future), `RefreshSessionIfNeeded` returns
    `(false, nil)` with the session untouched, whatever the token
    endpoint would have answered — i.e. without any token-endpoint
    call.  A token expiring at exactly `now` is already treated as
    expired. -/
theorem refreshSessionIfNeeded_fresh (redeemURL : String) (st : SessionState)
    (nowCheck nowCommit : Int) (wire : HttpResult)
    (h : nowCheck < st.ExpiresOn) :
    RefreshSessionIfNeeded redeemURL (some st) nowCheck nowCommit wire
      = (some st, false, none) := by
  simp [RefreshSessionIfNeeded, timeAfter, h]

theorem refreshSessionIfNeeded_fresh_witness :
    RefreshSessionIfNeeded "https://example.okta.com/oauth2/v1/token"
        (some (SessionState.mk "tok" "refresh-tok" 100)) 5 5 (.transportError "down")
      = (some (SessionState.mk "tok" "refresh-tok" 100), false, none) :=
  refreshSessionIfNeeded_fresh _ _ _ _ _ (by decide)

/-- C2: whenever a refresh is attempted (expired session, refresh token
    present) and the token-endpoint exchange fails — transport failure,
    body-read failure, non-200 status or JSON decode failure, i.e. any
    error outcome of `redeemRefreshToken` — the call returns
    `(false, error)` and the session, `AccessToken` and `ExpiresOn`
    included, is exactly what it was before. -/
theorem refreshSessionIfNeeded_redeemError_unchanged (redeemURL : String)
    (st : SessionState) (nowCheck nowCommit : Int) (wire : HttpResult) (e : String)
    (hexp : st.ExpiresOn ≤ nowCheck) (htok : st.RefreshToken ≠ "")
    (hred : redeemRefreshToken redeemURL wire = .error e) :
    RefreshSessionIfNeeded redeemURL (some st) nowCheck nowCommit wire
      = (some st, false, some e) := by
  simp [RefreshSessionIfNeeded, timeAfter, not_lt.mpr hexp, htok, hred]

theorem refreshSessionIfNeeded_redeemError_unchanged_witness :
    RefreshSessionIfNeeded "https://example.okta.com/oauth2/v1/token"
        (some (SessionState.mk "old" "refresh-tok" 5)) 10 10
        (.response 500 "server blew up" (.ok .null))
      = (some (SessionState.mk "old" "refresh-tok" 5), false,
         some ("got 500 from \"https://example.okta.com/oauth2/v1/token\" server blew up")) :=
  refreshSessionIfNeeded_redeemError_unchanged _ _ _ _ _ _ (by decide) (by decide) rfl

/-- C3: on a 200 token-endpoint response whose body decodes to
    `access_token = a`, `expires_in = n`, the session's `AccessToken`
    becomes `a` and `ExpiresOn` becomes `now + n` seconds truncated to
    the whole second, both written in one record update, and the call
    returns `(true, nil)`. -/
theorem refreshSessionIfNeeded_success_commit (redeemURL body : String)
    (st : SessionState) (nowCheck nowCommit : Int) (a : String) (n : Int)
    (hexp : st.ExpiresOn ≤ nowCheck) (htok : st.RefreshToken ≠ "") :
    RefreshSessionIfNeeded redeemURL (some st) nowCheck nowCommit
        (.response 200 body
          (.ok (.obj [("access_token", Json.str a), ("expires_in", Json.num n)])))
      = (some { st with AccessToken := a,
                        ExpiresOn := truncateSecond (nowCommit + n * nsPerSecond) },
         true, none) := by
  simp [RefreshSessionIfNeeded, redeemRefreshToken, unmarshalRefreshData,
        lookupField, timeAfter, not_lt.mpr hexp, htok]

theorem refreshSessionIfNeeded_success_commit_witness :
    RefreshSessionIfNeeded "https://example.okta.com/oauth2/v1/token" (some (SessionState.mk "old" "refresh-tok" 0))
        5000000000 5000123456
        (.response 200 "token-response-body"
          (.ok (.obj [("access_token", Json.str "new123"), ("expires_in", Json.num 3600)])))
      = (some (SessionState.mk "new123" "refresh-tok" 3605000000000), true, none) := by
  have h := refreshSessionIfNeeded_success_commit
    "https://example.okta.com/oauth2/v1/token" "token-response-body"
    (SessionState.mk "old" "refresh-tok" 0) 5000000000 5000123456 "new123" 3600
    (by decide) (by decide)
  rw [h]
  decide

/-- C4: an empty `RefreshToken` makes `RefreshSessionIfNeeded` return
    `(false, nil)` with the session untouched and independently of the
    token endpoint (no request is issued), expired or not. -/
theorem refreshSessionIfNeeded_noRefreshToken (redeemURL : String)
    (st : SessionState) (nowCheck nowCommit : Int) (wire : HttpResult)
    (h : st.RefreshToken = "") :
    RefreshSessionIfNeeded redeemURL (some st) nowCheck nowCommit wire
      = (some st, false, none) := by
  simp [RefreshSessionIfNeeded, h]

theorem refreshSessionIfNeeded_noRefreshToken_witness :
    RefreshSessionIfNeeded "https://example.okta.com/oauth2/v1/token"
        (some (SessionState.mk "expired-tok" "" 5)) 10 10
        (.response 200 "token-response-body"
          (.ok (.obj [("access_token", Json.str "new123"), ("expires_in", Json.num 3600)])))
      = (some (SessionState.mk "expired-tok" "" 5), false, none) :=
  refreshSessionIfNeeded_noRefreshToken _ _ _ _ _ rfl

/-- C10: a 200 response whose JSON object lacks `access_token` or
    `expires_in` still refreshes: the missing token commits `""` as the
    new `AccessToken`, a missing `expires_in` counts as 0 seconds so
    `ExpiresOn` becomes the current time truncated to the second, and
    the call returns `(true, nil)` in every case. -/
theorem refreshSessionIfNeeded_missingFields (redeemURL body : String)
    (st : SessionState) (nowCheck nowCommit : Int) (a : String) (n : Int)
    (hexp : st.ExpiresOn ≤ nowCheck) (htok : st.RefreshToken ≠ "") :
    RefreshSessionIfNeeded redeemURL (some st) nowCheck nowCommit
        (.response 200 body (.ok (.obj [])))
      = (some { st with AccessToken := "", ExpiresOn := truncateSecond nowCommit },
         true, none)
    ∧ RefreshSessionIfNeeded redeemURL (some st) nowCheck nowCommit
        (.response 200 body (.ok (.obj [("expires_in", Json.num n)])))
      = (some { st with AccessToken := "",
                        ExpiresOn := truncateSecond (nowCommit + n * nsPerSecond) },
         true, none)
    ∧ RefreshSessionIfNeeded redeemURL (some st) nowCheck nowCommit
        (.response 200 body (.ok (.obj [("access_token", Json.str a)])))
      = (some { st with AccessToken := a, ExpiresOn := truncateSecond nowCommit },
         true, none) := by
  refine ⟨?_, ?_, ?_⟩ <;>
    simp [RefreshSessionIfNeeded, redeemRefreshToken, unmarshalRefreshData,
          lookupField, timeAfter, not_lt.mpr hexp, htok]

theorem refreshSessionIfNeeded_missingFields_witness :
    RefreshSessionIfNeeded "https://example.okta.com/oauth2/v1/token"
        (some (SessionState.mk "old" "refresh-tok" 5)) 10 2500000000
        (.response 200 "token-response-body" (.ok (.obj [])))
      = (some (SessionState.mk "" "refresh-tok" 2000000000), true, none) := by
  have h := (refreshSessionIfNeeded_missingFields
    "https://example.okta.com/oauth2/v1/token" "token-response-body"
    (SessionState.mk "old" "refresh-tok" 5) 10 2500000000 "x" 0
    (by decide) (by decide)).1
  rw [h]
  decide

/-- C5: `ValidateSessionState` is a plain boolean (its codomain carries
    no error): every failure collapses to `false` — transport error,
    unreadable body, any non-200 status (401 and 500 among them),
    malformed body — while status 200 with a readable, parseable body
    is `true`. -/
theorem validateSessionState_failClosed (s : SessionState) :
    (∀ e, ValidateSessionState s (.transportError e) = false)
    ∧ (∀ e, ValidateSessionState s (.readError e) = false)
    ∧ (∀ status body parsed, status ≠ 200 →
        ValidateSessionState s (.response status body parsed) = false)
    ∧ (∀ body e, ValidateSessionState s (.response 200 body (.error e)) = false)
    ∧ (∀ body j, ValidateSessionState s (.response 200 body (.ok j)) = true) := by
  refine ⟨fun e => rfl, fun e => rfl, fun status body parsed h => ?_,
          fun body e => rfl, fun body j => rfl⟩
  simp [ValidateSessionState, validateToken, h]

theorem validateSessionState_failClosed_witness :
    ValidateSessionState (SessionState.mk "tok" "" 0) (.transportError "dns failure") = false
    ∧ ValidateSessionState (SessionState.mk "tok" "" 0)
        (.response 401 "unauthorized" (.ok .null)) = false
    ∧ ValidateSessionState (SessionState.mk "tok" "" 0)
        (.response 500 "server error" (.ok .null)) = false
    ∧ ValidateSessionState (SessionState.mk "tok" "" 0)
        (.response 200 "not json at all" (.error "invalid character")) = false
    ∧ ValidateSessionState (SessionState.mk "tok" "" 0)
        (.response 200 "userinfo-body" (.ok (.obj []))) = true :=
  ⟨(validateSessionState_failClosed _).1 _,
   (validateSessionState_failClosed _).2.2.1 _ _ _ (by decide),
   (validateSessionState_failClosed _).2.2.1 _ _ _ (by decide),
   (validateSessionState_failClosed _).2.2.2.1 _ _,
   (validateSessionState_failClosed _).2.2.2.2 _ _⟩

/-- C7: `GetEmailAddress` sends the session's bearer token to the
    userinfo endpoint and reads the top-level `email` key of the
    decoded object as a string: present key gives `(value, nil)`,
    absent key gives `("", error)` rather than a crash. -/
theorem getEmailAddress_extraction (p : ProviderData) (s : SessionState) :
    (oktaUserinfoRequest p s).headers
        = [("Authorization", "Bearer " ++ s.AccessToken)]
    ∧ (∀ a rest, GetEmailAddress (.ok (.obj (("email", Json.str a) :: rest))) = (a, none))
    ∧ (∀ fields, lookupField fields "email" = none →
        (GetEmailAddress (.ok (.obj fields))).1 = ""
          ∧ (GetEmailAddress (.ok (.obj fields))).2.isSome = true) := by
  refine ⟨rfl, fun a rest => ?_, fun fields h => ?_⟩
  · simp [GetEmailAddress, simpleJsonGetString, lookupField]
  · constructor <;> simp [GetEmailAddress, simpleJsonGetString, h]

theorem getEmailAddress_extraction_witness :
    (oktaUserinfoRequest
        (ProviderData.mk "Okta" "id" "secret" "openid" none none
          (some (URL.mk "https" "example.okta.com" "/oauth2/v1/userinfo")))
        (SessionState.mk "tok123" "" 0)).headers
        = [("Authorization", "Bearer tok123")]
    ∧ GetEmailAddress (.ok (.obj [("email", Json.str "a@b.com")])) = ("a@b.com", none)
    ∧ (GetEmailAddress (.ok (.obj []))).1 = ""
    ∧ (GetEmailAddress (.ok (.obj []))).2.isSome = true := by
  have h := getEmailAddress_extraction
    (ProviderData.mk "Okta" "id" "secret" "openid" none none
      (some (URL.mk "https" "example.okta.com" "/oauth2/v1/userinfo")))
    (SessionState.mk "tok123" "" 0)
  exact ⟨h.1, h.2.1 "a@b.com" [], (h.2.2 [] rfl).1, (h.2.2 [] rfl).2⟩

/-- C8: on a non-200 token-endpoint response the refresh path produces
    an error whose message carries both the status code and the raw
    body (shown by explicit substring decompositions), and the result
    never looks at any parse of that body (it is the same for every
    parse outcome). -/
theorem redeemRefreshToken_non200_error (redeemURL body : String) (status : Nat)
    (parsed parsed2 : Except String Json) (h : status ≠ 200) :
    redeemRefreshToken redeemURL (.response status body parsed)
        = .error ("got " ++ toString status ++ " from " ++ goQuote redeemURL ++ " " ++ body)
    ∧ (∃ x y, "got " ++ toString status ++ " from " ++ goQuote redeemURL ++ " " ++ body
          = x ++ toString status ++ y)
    ∧ (∃ x y, "got " ++ toString status ++ " from " ++ goQuote redeemURL ++ " " ++ body
          = x ++ body ++ y)
    ∧ redeemRefreshToken redeemURL (.response status body parsed)
        = redeemRefreshToken redeemURL (.response status body parsed2) := by
  refine ⟨by simp [redeemRefreshToken, h], ?_, ?_, by simp [redeemRefreshToken, h]⟩
  · exact ⟨"got ", " from " ++ goQuote redeemURL ++ " " ++ body,
      by simp [String.append_assoc]⟩
  · exact ⟨"got " ++ toString status ++ " from " ++ goQuote redeemURL ++ " ", "",
      by simp [String.append_assoc, String.append_empty]⟩

theorem redeemRefreshToken_non200_error_witness :
    redeemRefreshToken "https://example.okta.com/oauth2/v1/token"
        (.response 503 "service unavailable" (.ok .null))
        = .error "got 503 from \"https://example.okta.com/oauth2/v1/token\" service unavailable"
    ∧ (∃ x y, ("got 503 from \"https://example.okta.com/oauth2/v1/token\" service unavailable" : String)
          = x ++ toString 503 ++ y) := by
  have h := redeemRefreshToken_non200_error
    "https://example.okta.com/oauth2/v1/token" "service unavailable" 503
    (.ok .null) (.error "ignored") (by decide)
  refine ⟨?_, ?_⟩
  · rw [h.1]
    exact congrArg Except.error (by decide)
  · obtain ⟨x, y, hxy⟩ := h.2.1
    exact ⟨x, y, by rw [← hxy]; decide⟩

theorem setOktaDomain_LoginURL (p : ProviderData) (d : String) :
    (SetOktaDomain p d).LoginURL =
      if urlUnsetOrEmpty p.LoginURL then some ⟨"https", d, "/oauth2/v1/authorize"⟩
      else p.LoginURL := by
  by_cases h1 : urlUnsetOrEmpty p.LoginURL <;>
  by_cases h2 : urlUnsetOrEmpty p.RedeemURL <;>
  by_cases h3 : urlUnsetOrEmpty p.ValidateURL <;>
  simp [SetOktaDomain, h1, h2, h3]

theorem setOktaDomain_RedeemURL (p : ProviderData) (d : String) :
    (SetOktaDomain p d).RedeemURL =
      if urlUnsetOrEmpty p.RedeemURL then some ⟨"https", d, "/oauth2/v1/token"⟩
      else p.RedeemURL := by
  by_cases h1 : urlUnsetOrEmpty p.LoginURL <;>
  by_cases h2 : urlUnsetOrEmpty p.RedeemURL <;>
  by_cases h3 : urlUnsetOrEmpty p.ValidateURL <;>
  simp [SetOktaDomain, h1, h2, h3]

theorem setOktaDomain_ValidateURL (p : ProviderData) (d : String) :
    (SetOktaDomain p d).ValidateURL =
      if urlUnsetOrEmpty p.ValidateURL then some ⟨"https", d, "/oauth2/v1/userinfo"⟩
      else p.ValidateURL := by
  by_cases h1 : urlUnsetOrEmpty p.LoginURL <;>
  by_cases h2 : urlUnsetOrEmpty p.RedeemURL <;>
  by_cases h3 : urlUnsetOrEmpty p.ValidateURL <;>
  simp [SetOktaDomain, h1, h2, h3]

theorem setOktaDomain_otherFields (p : ProviderData) (d : String) :
    (SetOktaDomain p d).ProviderName = p.ProviderName
    ∧ (SetOktaDomain p d).ClientID = p.ClientID
    ∧ (SetOktaDomain p d).ClientSecret = p.ClientSecret
    ∧ (SetOktaDomain p d).Scope = p.Scope := by
  by_cases h1 : urlUnsetOrEmpty p.LoginURL <;>
  by_cases h2 : urlUnsetOrEmpty p.RedeemURL <;>
  by_cases h3 : urlUnsetOrEmpty p.ValidateURL <;>
  simp [SetOktaDomain, h1, h2, h3]

theorem urlUnsetOrEmpty_default (d path : String) :
    urlUnsetOrEmpty (some ⟨"https", d, path⟩) = false := by
  simp [urlUnsetOrEmpty, render_okta_ne_empty]

/-- C6: `SetOktaDomain` writes the three derived endpoints
    (`https://<domain>/oauth2/v1/{authorize,token,userinfo}`) only into
    slots that are unset (nil) or render to the empty string; an
    explicitly configured (non-empty) URL is never overwritten, and the
    whole operation is idempotent. -/
theorem setOktaDomain_defaulting (p : ProviderData) (d : String) :
    SetOktaDomain (SetOktaDomain p d) d = SetOktaDomain p d
    ∧ (∀ u, p.LoginURL = some u → u.render ≠ "" →
        (SetOktaDomain p d).LoginURL = some u)
    ∧ (∀ u, p.RedeemURL = some u → u.render ≠ "" →
        (SetOktaDomain p d).RedeemURL = some u)
    ∧ (∀ u, p.ValidateURL = some u → u.render ≠ "" →
        (SetOktaDomain p d).ValidateURL = some u)
    ∧ (urlUnsetOrEmpty p.LoginURL = true →
        (SetOktaDomain p d).LoginURL = some ⟨"https", d, "/oauth2/v1/authorize"⟩)
    ∧ (urlUnsetOrEmpty p.RedeemURL = true →
        (SetOktaDomain p d).RedeemURL = some ⟨"https", d, "/oauth2/v1/token"⟩)
    ∧ (urlUnsetOrEmpty p.ValidateURL = true →
        (SetOktaDomain p d).ValidateURL = some ⟨"https", d, "/oauth2/v1/userinfo"⟩) := by
  have hL := setOktaDomain_LoginURL p d
  have hR := setOktaDomain_RedeemURL p d
  have hV := setOktaDomain_ValidateURL p d
  refine ⟨?_, ?_, ?_, ?_, ?_, ?_, ?_⟩
  · by_cases h1 : urlUnsetOrEmpty p.LoginURL <;>
    by_cases h2 : urlUnsetOrEmpty p.RedeemURL <;>
    by_cases h3 : urlUnsetOrEmpty p.ValidateURL <;>
    simp [SetOktaDomain, h1, h2, h3, urlUnsetOrEmpty_default]
  · intro u hu hne
    rw [hL, hu]
    simp [urlUnsetOrEmpty, hne]
  · intro u hu hne
    rw [hR, hu]
    simp [urlUnsetOrEmpty, hne]
  · intro u hu hne
    rw [hV, hu]
    simp [urlUnsetOrEmpty, hne]
  · intro h
    simp [hL, h]
  · intro h
    simp [hR, h]
  · intro h
    simp [hV, h]

/-- A provider configuration with one explicitly configured endpoint,
    one nil endpoint and one set-but-empty endpoint. -/
def oktaExampleProvider : ProviderData :=
  { ProviderName := "Okta"
    ClientID := "client-id"
    ClientSecret := "client-secret"
    Scope := "openid profile email offline_access"
    LoginURL := some ⟨"http", "custom.example.com", "/auth"⟩
    RedeemURL := none
    ValidateURL := some ⟨"", "", ""⟩ }

theorem setOktaDomain_defaulting_witness :
    SetOktaDomain (SetOktaDomain oktaExampleProvider "example.okta.com") "example.okta.com"
        = SetOktaDomain oktaExampleProvider "example.okta.com"
    ∧ (SetOktaDomain oktaExampleProvider "example.okta.com").LoginURL
        = some ⟨"http", "custom.example.com", "/auth"⟩
    ∧ (SetOktaDomain oktaExampleProvider "example.okta.com").RedeemURL
        = some ⟨"https", "example.okta.com", "/oauth2/v1/token"⟩
    ∧ (SetOktaDomain oktaExampleProvider "example.okta.com").ValidateURL
        = some ⟨"https", "example.okta.com", "/oauth2/v1/userinfo"⟩ :=
  ⟨(setOktaDomain_defaulting oktaExampleProvider "example.okta.com").1,
   (setOktaDomain_defaulting oktaExampleProvider "example.okta.com").2.1
      ⟨"http", "custom.example.com", "/auth"⟩ rfl (by decide),
   (setOktaDomain_defaulting oktaExampleProvider "example.okta.com").2.2.2.2.2.1 rfl,
   (setOktaDomain_defaulting oktaExampleProvider "example.okta.com").2.2.2.2.2.2 rfl⟩

theorem headerGet_headerDel_self (h : List (String × String)) (k : String) :
    headerGet (headerDel h k) k = "" := by
  induction h with
  | nil => rfl
  | cons kv rest ih =>
    rcases kv with ⟨k0, v⟩
    by_cases hk : k0 = k
    · simpa [headerDel, headerGet, hk] using ih
    · simpa [headerDel, headerGet, hk] using ih

theorem headerGet_headerDel_ne (h : List (String × String)) (k k2 : String)
    (hne : k ≠ k2) : headerGet (headerDel h k2) k = headerGet h k := by
  induction h with
  | nil => rfl
  | cons kv rest ih =>
    rcases kv with ⟨k0, v⟩
    by_cases hk : k0 = k2
    · subst hk
      simp [headerDel, headerGet, Ne.symm hne] at ih ⊢
      exact ih
    · simp [headerDel, headerGet, hk] at ih ⊢
      by_cases hk0 : k0 = k
      · simp [hk0]
      · simp [hk0]
        exact ih

theorem extractGAPMetadata_auth (l : responseLogger) (a : String)
    (ha : headerGet l.headers "GAP-Auth" = a) (ha0 : a ≠ "") :
    (ExtractGAPMetadata l).authInfo = a
    ∧ headerGet (ExtractGAPMetadata l).headers "GAP-Auth" = "" := by
  unfold ExtractGAPMetadata
  by_cases hup : headerGet l.headers "GAP-Upstream-Address" = ""
  · simp [hup, ha, ha0, headerGet_headerDel_self]
  · have hga : headerGet (headerDel l.headers "GAP-Upstream-Address") "GAP-Auth" = a := by
      rw [headerGet_headerDel_ne _ _ _ (by decide), ha]
    simp [hup, hga, ha0, headerGet_headerDel_self]

theorem extractGAPMetadata_upstream (l : responseLogger) (u : String)
    (hu : headerGet l.headers "GAP-Upstream-Address" = u) (hu0 : u ≠ "") :
    (ExtractGAPMetadata l).upstream = u
    ∧ headerGet (ExtractGAPMetadata l).headers "GAP-Upstream-Address" = "" := by
  unfold ExtractGAPMetadata
  have hdel := headerGet_headerDel_self l.headers "GAP-Upstream-Address"
  by_cases hga : headerGet (headerDel l.headers "GAP-Upstream-Address") "GAP-Auth" = ""
  · simp [hu, hu0, hga, hdel]
  · have hkeep : headerGet (headerDel (headerDel l.headers "GAP-Upstream-Address") "GAP-Auth")
        "GAP-Upstream-Address" = "" := by
      rw [headerGet_headerDel_ne _ _ _ (by decide)]
      exact hdel
    simp [hu, hu0, hga, hdel, hkeep]

/-- C9: if the inner handler left a non-empty `GAP-Auth` or
    `GAP-Upstream-Address` header on the response, then at the moment
    the status line (`WriteHeader`) or a body chunk (`Write`) reaches
    the client that header is already deleted from the client-visible
    header map; its value is captured on the logger and rendered into
    the audit line as the `Username` (resp. `Upstream`) field, with
    `"-"` substituted for an empty value. -/
theorem loggingHandler_gapMetadata (l : responseLogger) (s : Nat) (b rb : String)
    (sc sz : Nat) :
    (∀ a, a ≠ "" → headerGet l.headers "GAP-Auth" = a →
      headerGet (loggerWriteHeader l s).2 "GAP-Auth" = ""
      ∧ headerGet (loggerWrite l b).2 "GAP-Auth" = ""
      ∧ (loggerWriteHeader l s).1.authInfo = a
      ∧ (loggerWrite l b).1.authInfo = a
      ∧ (writeLogLine (loggerWriteHeader l s).1.authInfo
          (loggerWriteHeader l s).1.upstream none rb sc sz).Username = a)
    ∧ (∀ u, u ≠ "" → headerGet l.headers "GAP-Upstream-Address" = u →
      headerGet (loggerWriteHeader l s).2 "GAP-Upstream-Address" = ""
      ∧ headerGet (loggerWrite l b).2 "GAP-Upstream-Address" = ""
      ∧ (loggerWriteHeader l s).1.upstream = u
      ∧ (loggerWrite l b).1.upstream = u
      ∧ (writeLogLine (loggerWriteHeader l s).1.authInfo
          (loggerWriteHeader l s).1.upstream none rb sc sz).Upstream = u)
    ∧ (writeLogLine "" "" none rb sc sz).Username = "-"
    ∧ (writeLogLine "" "" none rb sc sz).Upstream = "-" := by
  refine ⟨fun a ha0 ha => ?_, fun u hu0 hu => ?_, rfl, rfl⟩
  · have h1 := extractGAPMetadata_auth l a ha ha0
    have hW : headerGet (loggerWrite l b).2 "GAP-Auth" = ""
        ∧ (loggerWrite l b).1.authInfo = a := by
      by_cases h0 : l.status = 0
      · have h2 := extractGAPMetadata_auth { l with status := 200 } a ha ha0
        simp [loggerWrite, h0]
        exact ⟨h2.2, h2.1⟩
      · simp [loggerWrite, h0]
        exact ⟨h1.2, h1.1⟩
    have hWH : (loggerWriteHeader l s).1.authInfo = a := by
      simpa [loggerWriteHeader] using h1.1
    refine ⟨?_, hW.1, hWH, hW.2, ?_⟩
    · simpa [loggerWriteHeader] using h1.2
    · simp [writeLogLine, logLineUsername, hWH, ha0]
  · have h1 := extractGAPMetadata_upstream l u hu hu0
    have hW : headerGet (loggerWrite l b).2 "GAP-Upstream-Address" = ""
        ∧ (loggerWrite l b).1.upstream = u := by
      by_cases h0 : l.status = 0
      · have h2 := extractGAPMetadata_upstream { l with status := 200 } u hu hu0
        simp [loggerWrite, h0]
        exact ⟨h2.2, h2.1⟩
      · simp [loggerWrite, h0]
        exact ⟨h1.2, h1.1⟩
    have hWH : (loggerWriteHeader l s).1.upstream = u := by
      simpa [loggerWriteHeader] using h1.1
    refine ⟨?_, hW.1, hWH, hW.2, ?_⟩
    · simpa [loggerWriteHeader] using h1.2
    · simp [writeLogLine, logLineUpstream, hWH, hu0]

theorem loggingHandler_gapMetadata_witness :
    headerGet (loggerWriteHeader
        (responseLogger.mk [("GAP-Auth", "alice@example.com"), ("Content-Type", "text/html")]
          0 0 "" "") 204).2 "GAP-Auth" = ""
    ∧ (loggerWriteHeader
        (responseLogger.mk [("GAP-Auth", "alice@example.com"), ("Content-Type", "text/html")]
          0 0 "" "") 204).1.authInfo = "alice@example.com"
    ∧ (writeLogLine (loggerWriteHeader
        (responseLogger.mk [("GAP-Auth", "alice@example.com"), ("Content-Type", "text/html")]
          0 0 "" "") 204).1.authInfo
        (loggerWriteHeader
          (responseLogger.mk [("GAP-Auth", "alice@example.com"), ("Content-Type", "text/html")]
            0 0 "" "") 204).1.upstream
        none "req-body" 204 0).Username = "alice@example.com"
    ∧ (writeLogLine "" "" none "req-body" 204 0).Username = "-"
    ∧ (writeLogLine "" "" none "req-body" 204 0).Upstream = "-" := by
  have h := loggingHandler_gapMetadata
    (responseLogger.mk [("GAP-Auth", "alice@example.com"), ("Content-Type", "text/html")]
      0 0 "" "") 204 "chunk" "req-body" 204 0
  have ha := h.1 "alice@example.com" (by decide) rfl
  exact ⟨ha.1, ha.2.2.1, ha.2.2.2.2, h.2.2.1, h.2.2.2⟩

end OAuth2Proxy
